import Mathlib

/-!
# wlogrus: a verification development for `wrapper.go`

Shallow embedding of the package `wlogrus` (a wrapper around the logrus
logging library).  The functions of `wrapper.go` are translated one by one;
what they call in the Go standard library and in logrus is modelled at the
call boundary:

* `fmt.Sprintf` with `%v` of a string, `%s` and `%d` is string concatenation;
  `%v` of the message body (an `interface{}`) is a parameter `render`;
* `os.Getenv` reads the environment and gives `""` for an unset variable;
* `time.Time.Format` is interpreted for the layout elements the package uses;
* `filepath.Base` is the Unix implementation of the standard library;
* `runtime.Caller` and `runtime.FuncForPC` are the fields of a `Runtime`;
* a logrus logger is its level and its formatter; an entry that passes the
  level gate is handed to the formatter and the result is written to the
  standard output; `Fatal` logs and then calls `Exit 1`;
* the bytes produced by `logrus.JSONFormatter` are a parameter.
-/

namespace Wlogrus

/-! ## Standard library -/

/-- The process environment: a variable is set to a string or unset. -/
abbrev Env := String → Option String

/-- Go `os.Getenv`: the value of the variable, `""` when it is unset. -/
def Getenv (env : Env) (key : String) : String :=
  (env key).getD ""

/-- Wall-clock reading of a `time.Time` (what `Date` and `Clock` return). -/
structure Time where
  year : Nat
  month : Nat
  day : Nat
  hour : Nat
  minute : Nat
  second : Nat
  deriving DecidableEq, Repr

/-- Decimal digits of `n`, zero-padded on the left to at least `width`
characters (Go `appendInt` for a non-negative value). -/
def appendInt (n width : Nat) : List Char :=
  List.replicate (width - (Nat.repr n).length) '0' ++ (Nat.repr n).data

/-- Go `Time.Format` on the characters of a layout, for the layout elements
`2006`, `01`, `02`, `15`, `04` and `05`, the ones of the layout the package
uses; every other character is copied, as Go does with `-`, `:` and the
space (the other elements of Go layouts, such as `Jan` or `PM`, are not
interpreted). -/
def formatLayout (t : Time) : List Char → List Char
  | '2' :: '0' :: '0' :: '6' :: rest => appendInt t.year 4 ++ formatLayout t rest
  | '0' :: '1' :: rest => appendInt t.month 2 ++ formatLayout t rest
  | '0' :: '2' :: rest => appendInt t.day 2 ++ formatLayout t rest
  | '1' :: '5' :: rest => appendInt t.hour 2 ++ formatLayout t rest
  | '0' :: '4' :: rest => appendInt t.minute 2 ++ formatLayout t rest
  | '0' :: '5' :: rest => appendInt t.second 2 ++ formatLayout t rest
  | c :: rest => c :: formatLayout t rest
  | [] => []

/-- Go `Time.Format`. -/
def Time.Format (t : Time) (layout : String) : String :=
  String.mk (formatLayout t layout.data)

/-- Go `strings.ToUpper`, on ASCII letters. -/
def ToUpper (s : String) : String :=
  String.mk (s.data.map Char.toUpper)

/-- Go `filepath.Base` (Unix): the last element of the path; trailing
slashes are removed first; `"."` for the empty path and `"/"` for a path of
slashes only. -/
def Base (path : String) : String :=
  if path = "" then "."
  else
    let stripped := (path.data.reverse.dropWhile (fun c => c == '/')).reverse
    let last := (stripped.reverse.takeWhile (fun c => c != '/')).reverse
    if last = [] then "/" else String.mk last

/-- What the Go runtime answers about the call stack. `Caller skip` is the
program counter, file and line of the frame `skip` levels above the function
that calls `runtime.Caller` (`none` when it cannot be resolved);
`FuncForPC pc` is the name of the function that contains `pc` (`none` when
there is none). -/
structure Runtime where
  Caller : Int → Option (Nat × String × Nat)
  FuncForPC : Nat → Option String

/-- Go `runtime.Caller`: `(pc, file, line, ok)`, all zero when not ok. -/
def runtimeCaller (rt : Runtime) (skip : Int) : Nat × String × Nat × Bool :=
  match rt.Caller skip with
  | some (pc, file, line) => (pc, file, line, true)
  | none => (0, "", 0, false)

/-- Go `runtime.FuncForPC`: no function contains the program counter 0. -/
def runtimeFuncForPC (rt : Runtime) (pc : Nat) : Option String :=
  if pc = 0 then none else rt.FuncForPC pc

/-- Go `(*Func).Name`: the empty string on the nil receiver. -/
def FuncName (f : Option String) : String :=
  f.getD ""

/-! ## logrus -/

/-- Type `logrus.Level` (an unsigned integer; lower is more severe). -/
abbrev Level := Nat

def PanicLevel : Level := 0
def FatalLevel : Level := 1
def ErrorLevel : Level := 2
def WarnLevel : Level := 3
def InfoLevel : Level := 4
def DebugLevel : Level := 5
def TraceLevel : Level := 6

/-- Method `logrus.Level.String`. -/
def levelString (level : Level) : String :=
  match level with
  | 0 => "panic"
  | 1 => "fatal"
  | 2 => "error"
  | 3 => "warning"
  | 4 => "info"
  | 5 => "debug"
  | 6 => "trace"
  | _ => "unknown"

/-- A value stored in `logrus.Fields`: one of the strings of the message, or
its body. -/
inductive Value (β : Type) where
  | str : String → Value β
  | body : β → Value β
  deriving DecidableEq, Repr

/-- Type `logrus.Fields`, as the key/value pairs of the map literal. -/
abbrev Fields (β : Type) := List (String × Value β)

/-- The keys of a field map. -/
def Fields.keys {β : Type} (d : Fields β) : List String :=
  d.map Prod.fst

/-- The settings of `logrus.TextFormatter` that the package sets. -/
structure TextFormatter where
  FullTimestamp : Bool
  TimestampFormat : String
  ForceColors : Bool
  DisableLevelTruncation : Bool
  deriving DecidableEq, Repr

/-- The formatter of a logger: the package's `logFormatter` (which embeds a
`TextFormatter`) or `logrus.JSONFormatter`. -/
inductive Formatter where
  | logFormatter : TextFormatter → Formatter
  | JSONFormatter : Formatter
  deriving DecidableEq, Repr

/-- The part of `logrus.Entry` a formatter reads. -/
structure Entry (β : Type) where
  Time : Time
  Level : Level
  Message : String
  Data : Fields β

/-- The part of `logrus.Logger` the package sets (`Out` is always the
standard output). -/
structure Logger where
  Level : Level
  Formatter : Formatter
  deriving DecidableEq, Repr

/-- A call of a level method (`Debug`, `Info`, ...) on an entry: the level,
the message and the fields of the entry. -/
structure LogCall (β : Type) where
  Level : Level
  Message : String
  Data : Fields β

/-- An entry that passed the level gate, with the formatter that serialises
it. -/
structure Record (β : Type) where
  formatter : Formatter
  entry : Entry β

/-- The state of the process: the calls made on the logger so far (whether
or not the level gate lets them through), the records emitted to the
standard output, in order, and the exit status once the process has
terminated. -/
structure World (β : Type) where
  calls : List (LogCall β)
  stdout : List (Record β)
  exit : Option Nat

/-- A call on the logger is noted; a terminated process calls nothing. -/
def World.call {β : Type} (w : World β) (c : LogCall β) : World β :=
  match w.exit with
  | some _ => w
  | none => { w with calls := w.calls ++ [c] }

/-- A write to the standard output; a terminated process writes nothing. -/
def World.write {β : Type} (w : World β) (r : Record β) : World β :=
  match w.exit with
  | some _ => w
  | none => { w with stdout := w.stdout ++ [r] }

/-- Method `logrus.Logger.Exit` (no exit handler is registered, `ExitFunc` is
`os.Exit`). -/
def World.Exit {β : Type} (w : World β) (code : Nat) : World β :=
  match w.exit with
  | some _ => w
  | none => { w with exit := some code }

/-- Method `logrus.Logger.IsLevelEnabled`. -/
def Logger.IsLevelEnabled (logger : Logger) (level : Wlogrus.Level) : Bool :=
  decide (logger.Level ≥ level)

/-- Method `logrus.Logger.SetFormatter`. -/
def Logger.SetFormatter (logger : Logger) (formatter : Wlogrus.Formatter) : Logger :=
  { logger with Formatter := formatter }

/-- An entry under construction: the logger and the fields attached so far
(`logger.WithFields(...)`, `logger.WithContext(ctx)`). -/
structure EntryBuilder (β : Type) where
  Logger : Logger
  Data : Fields β

/-- Method `logrus.Logger.WithFields`. -/
def Logger.WithFields {β : Type} (logger : Logger) (fields : Fields β) : EntryBuilder β :=
  { Logger := logger, Data := fields }

/-- Method `logrus.Logger.WithContext` (a new entry without fields). -/
def Logger.WithContext {β : Type} (logger : Logger) : EntryBuilder β :=
  { Logger := logger, Data := [] }

/-- Method `logrus.Entry.WithContext` (the fields are kept). -/
def EntryBuilder.WithContext {β : Type} (e : EntryBuilder β) : EntryBuilder β :=
  e

/-- Method `logrus.Entry.Log`: when the level is enabled, the entry gets the
current time, the level and the message and is written out. -/
def EntryBuilder.Log {β : Type} (e : EntryBuilder β) (now : Time) (level : Level)
    (msg : String) (w : World β) : World β :=
  let w := w.call { Level := level, Message := msg, Data := e.Data }
  if e.Logger.IsLevelEnabled level then
    w.write { formatter := e.Logger.Formatter,
              entry := { Time := now, Level := level, Message := msg, Data := e.Data } }
  else w

def EntryBuilder.Debug {β : Type} (e : EntryBuilder β) (now : Time) (msg : String)
    (w : World β) : World β :=
  e.Log now DebugLevel msg w

def EntryBuilder.Info {β : Type} (e : EntryBuilder β) (now : Time) (msg : String)
    (w : World β) : World β :=
  e.Log now InfoLevel msg w

def EntryBuilder.Warning {β : Type} (e : EntryBuilder β) (now : Time) (msg : String)
    (w : World β) : World β :=
  e.Log now WarnLevel msg w

def EntryBuilder.Error {β : Type} (e : EntryBuilder β) (now : Time) (msg : String)
    (w : World β) : World β :=
  e.Log now ErrorLevel msg w

/-- Method `logrus.Entry.Fatal`: log at fatal level, then `Exit(1)`. -/
def EntryBuilder.Fatal {β : Type} (e : EntryBuilder β) (now : Time) (msg : String)
    (w : World β) : World β :=
  (e.Log now FatalLevel msg w).Exit 1

/-! ## wrapper.go -/

/-- Message holds the existing log message fields. -/
structure Message (β : Type) where
  Severity : String
  Tag : String
  Body : β
  Location : String

/-- The color the formatter picks for a level (the `switch` of `Format`). -/
def levelColor (level : Level) : Nat :=
  if level = DebugLevel ∨ level = TraceLevel then 44
  else if level = WarnLevel then 33
  else if level = ErrorLevel then 31
  else if level = FatalLevel ∨ level = PanicLevel then 41
  else 36

/-- Method `(*logFormatter).Format`: the bytes and the error (`none` for nil).
The format string is `"%s [\x1b[%dm%s\x1b[0m] %s\n"`. -/
def Format {β : Type} (f : TextFormatter) (entry : Entry β) : String × Option String :=
  (entry.Time.Format f.TimestampFormat ++ " [\x1b[" ++ Nat.repr (levelColor entry.Level) ++ "m"
    ++ ToUpper (levelString entry.Level) ++ "\x1b[0m] " ++ entry.Message ++ "\n", none)

/-- The message built by `consoleOut` before the `switch`:
`fmt.Sprintf("[%v] %v", m.Tag, m.Body)`. -/
def entryText {β : Type} (render : β → String) (m : Message β) : String :=
  "[" ++ m.Tag ++ "] " ++ render m.Body

/-- The `logrus.TextFormatter` literal embedded in the `logFormatter` of
`consoleOut`. -/
def textFormatter : TextFormatter :=
  { FullTimestamp := true, TimestampFormat := "2006-01-02 15:04:05",
    ForceColors := true, DisableLevelTruncation := true }

/-- The logger `consoleOut` builds and configures from the environment. -/
def newLogger (env : Env) : Logger :=
  let logger : Logger :=
    { Level := InfoLevel, Formatter := Formatter.logFormatter textFormatter }
  let logger :=
    if Getenv env "WLOGRUS_JSON" = "true" then logger.SetFormatter Formatter.JSONFormatter
    else logger
  if Getenv env "WLOGRUS_DEBUG" = "true" then { logger with Level := DebugLevel }
  else logger

/-- Function `consoleOut`. `now` is the clock reading when the entry is
logged, `render` is `%v` on the body. -/
def consoleOut {β : Type} (env : Env) (now : Time) (render : β → String) (m : Message β)
    (w : World β) : World β :=
  let logger := newLogger env
  let entry := entryText render m
  if m.Severity = "DEBUG" then
    ((logger.WithFields
      [("severity", Value.str m.Severity), ("tag", Value.str m.Tag), ("body", Value.body m.Body),
       ("caller", Value.str m.Location)]).WithContext).Debug now entry w
  else if m.Severity = "INFO" then
    ((logger.WithFields
      [("severity", Value.str m.Severity), ("tag", Value.str m.Tag),
       ("body", Value.body m.Body)]).WithContext).Info now entry w
  else if m.Severity = "WARNING" then
    ((logger.WithFields
      [("severity", Value.str m.Severity), ("tag", Value.str m.Tag),
       ("body", Value.body m.Body)]).WithContext).Warning now entry w
  else if m.Severity = "ERROR" then
    let entry := entry ++ " [" ++ m.Location ++ "]"
    ((logger.WithFields
      [("severity", Value.str m.Severity), ("tag", Value.str m.Tag), ("body", Value.body m.Body),
       ("caller", Value.str m.Location)]).WithContext).Error now entry w
  else if m.Severity = "FATAL" then
    let entry := entry ++ " [" ++ m.Location ++ "]"
    ((logger.WithFields
      [("severity", Value.str m.Severity), ("tag", Value.str m.Tag), ("body", Value.body m.Body),
       ("caller", Value.str m.Location)]).WithContext).Fatal now entry w
  else
    (logger.WithContext).Info now entry w

/-- Info will log informational messages to stdout. The location of the
message is the zero value of a string. -/
def Info {β : Type} (env : Env) (now : Time) (render : β → String) (tag : String) (message : β)
    (w : World β) : World β :=
  consoleOut env now render { Severity := "INFO", Tag := tag, Body := message, Location := "" } w

/-- Warn will log warning messages to stdout. -/
def Warn {β : Type} (env : Env) (now : Time) (render : β → String) (tag : String) (message : β)
    (w : World β) : World β :=
  consoleOut env now render { Severity := "WARNING", Tag := tag, Body := message, Location := "" } w

/-- Error will log Error messages with information on the runtime caller. -/
def Error {β : Type} (env : Env) (now : Time) (render : β → String) (tag : String) (err : β)
    (callerInfo : String) (w : World β) : World β :=
  consoleOut env now render
    { Severity := "ERROR", Tag := tag, Body := err, Location := callerInfo } w

/-- Fatal will log Fatal messages with information on the runtime caller
before exiting with an error. -/
def Fatal {β : Type} (env : Env) (now : Time) (render : β → String) (tag : String) (err : β)
    (callerInfo : String) (w : World β) : World β :=
  consoleOut env now render
    { Severity := "FATAL", Tag := tag, Body := err, Location := callerInfo } w

/-- Debug will log additional messages when the debug flag is enabled. -/
def Debug {β : Type} (env : Env) (now : Time) (render : β → String) (tag : String) (message : β)
    (callerInfo : String) (w : World β) : World β :=
  consoleOut env now render
    { Severity := "DEBUG", Tag := tag, Body := message, Location := callerInfo } w

/-- CallerInfo returns function name, file and line number which invoked it.
`depthList` is the variadic argument: `none` is the nil slice (no argument).
The result is `none` when the function panics (indexing an empty slice).
The format string is `"%s.%s:%d"`. -/
def CallerInfo (rt : Runtime) (depthList : Option (List Int)) : Option String :=
  let depth? : Option Int :=
    match depthList with
    | none => some 1
    | some l => l.head?
  match depth? with
  | none => none
  | some depth =>
    let (function, file, line, _) := runtimeCaller rt depth
    some (Base file ++ "." ++ Base (FuncName (runtimeFuncForPC rt function)) ++ ":" ++ Nat.repr line)

/-- The bytes a record puts on the standard output: the result of its
formatter, nothing when the formatter reports an error. `jsonFormat` is
method `Format` of `logrus.JSONFormatter`. -/
def Record.bytes {β : Type} (jsonFormat : Entry β → String × Option String) (r : Record β) :
    String :=
  let res :=
    match r.formatter with
    | Formatter.logFormatter f => Format f r.entry
    | Formatter.JSONFormatter => jsonFormat r.entry
  match res.2 with
  | none => res.1
  | some _ => ""

/-- All bytes on the standard output. -/
def World.bytes {β : Type} (jsonFormat : Entry β → String × Option String) (w : World β) :
    String :=
  String.join (w.stdout.map (Record.bytes jsonFormat))

/-- The state of a process that has written nothing yet. -/
def World.init {β : Type} : World β :=
  { calls := [], stdout := [], exit := none }

/-- The timestamp in the words of the specification, `YYYY-MM-DD HH:MM:SS`:
the year on four digits, then month, day, hour, minute and second on two
digits each, zero-padded. -/
def timestamp (t : Time) : String :=
  String.mk (appendInt t.year 4 ++ ['-'] ++ appendInt t.month 2 ++ ['-'] ++ appendInt t.day 2
    ++ [' '] ++ appendInt t.hour 2 ++ [':'] ++ appendInt t.minute 2 ++ [':']
    ++ appendInt t.second 2)

/-! ## Bodies the JSON encoding rejects -/

/-- Go values a caller can pass as the body of a message: a string, or a
channel, given by the name of its element type and by the address that `%v`
prints for it. -/
inductive GoValue where
  | str : String → GoValue
  | chan : String → String → GoValue
  deriving DecidableEq, Repr

/-- Go `%v` on such a body. -/
def GoValue.render : GoValue → String
  | GoValue.str s => s
  | GoValue.chan _ addr => addr

/-- Whether `encoding/json` can encode the value: it cannot encode a channel
(`json: unsupported type`). -/
def GoValue.marshalable : GoValue → Bool
  | GoValue.str _ => true
  | GoValue.chan _ _ => false

/-- Method `Format` of `logrus.JSONFormatter` on entries whose body is a
`GoValue`: when a field holds a value `encoding/json` cannot encode, `Format`
returns no bytes and an error; otherwise it returns the bytes of `encode`,
the encoding of the library, and no error. -/
def JSONFormat (encode : Entry GoValue → String) (entry : Entry GoValue) :
    String × Option String :=
  if entry.Data.all (fun kv =>
      match kv.2 with
      | Value.str _ => true
      | Value.body b => b.marshalable) then (encode entry, none)
  else ("", some "failed to marshal fields to JSON, json: unsupported type")

/-! ## Sample inputs -/

/-- An environment in which no variable is set. -/
def emptyEnv : Env := fun _ => none

/-- An environment in which only `name` is set, to `value`. -/
def singleEnv (name value : String) : Env :=
  fun key => if key = name then some value else none

/-- An environment in which `WLOGRUS_DEBUG` and `WLOGRUS_JSON` are both set to
`"true"` and nothing else is set. -/
def debugJsonEnv : Env :=
  fun key => if key = "WLOGRUS_DEBUG" ∨ key = "WLOGRUS_JSON" then some "true" else none

/-- A stand-in for the encoding of the library, for inputs whose encoding
fails before any byte is produced. -/
def sampleEncode : Entry GoValue → String :=
  fun entry => "\x7b\"msg\":\"" ++ entry.Message ++ "\"\x7d\n"

/-- A clock reading: 2024-03-09 07:05:01. -/
def sampleTime : Time :=
  { year := 2024, month := 3, day := 9, hour := 7, minute := 5, second := 1 }

/-- An entry at error level, logged at the sample clock reading. -/
def sampleEntry : Entry String :=
  { Time := sampleTime, Level := ErrorLevel,
    Message := "[db] connection refused [db.go.Connect:42]",
    Data := [("severity", Value.str "ERROR"), ("tag", Value.str "db"),
             ("body", Value.body "connection refused"),
             ("caller", Value.str "db.go.Connect:42")] }

/-- A call stack: `runtime.Caller` is called in `CallerInfo` (frame 0), which
was called by `Connect` in `db.go` at line 42 (frame 1), which was called by
`main` (frame 2); nothing is resolved elsewhere. -/
def sampleRuntime : Runtime :=
  { Caller := fun skip =>
      if skip = 0 then some (100, "/go/pkg/mod/github.com/silveiralexf/wlogrus/wrapper.go", 144)
      else if skip = 1 then some (200, "/home/dev/app/db/db.go", 42)
      else if skip = 2 then some (300, "/home/dev/app/main.go", 17)
      else none,
    FuncForPC := fun pc =>
      if pc = 100 then some "github.com/silveiralexf/wlogrus.CallerInfo"
      else if pc = 200 then some "github.com/dev/app/db.Connect"
      else if pc = 300 then some "main.main"
      else none }


end Wlogrus

namespace Wlogrus

/-! ## Auxiliary facts -/

theorem newLogger_Level (env : Env) :
    (newLogger env).Level =
      if Getenv env "WLOGRUS_DEBUG" = "true" then DebugLevel else InfoLevel := by
  unfold newLogger Logger.SetFormatter
  by_cases hj : Getenv env "WLOGRUS_JSON" = "true" <;>
    by_cases hd : Getenv env "WLOGRUS_DEBUG" = "true" <;> simp [hj, hd]

theorem newLogger_Formatter (env : Env) :
    (newLogger env).Formatter =
      if Getenv env "WLOGRUS_JSON" = "true" then Formatter.JSONFormatter
      else Formatter.logFormatter textFormatter := by
  unfold newLogger Logger.SetFormatter
  by_cases hj : Getenv env "WLOGRUS_JSON" = "true" <;>
    by_cases hd : Getenv env "WLOGRUS_DEBUG" = "true" <;> simp [hj, hd]

/-- The level of the logger is info or debug, so every level up to info is
enabled. -/
theorem newLogger_enabled (env : Env) (level : Level) (h : level ≤ InfoLevel) :
    (newLogger env).IsLevelEnabled level = true := by
  unfold Logger.IsLevelEnabled
  rw [newLogger_Level]
  have h4 : @LE.le Nat _ level 4 := h
  split
  · exact decide_eq_true (Nat.le_trans h4 (by decide : (4 : Nat) ≤ 5))
  · exact decide_eq_true h4

theorem newLogger_enabled_debug (env : Env) :
    (newLogger env).IsLevelEnabled DebugLevel
      = decide (Getenv env "WLOGRUS_DEBUG" = "true") := by
  unfold Logger.IsLevelEnabled
  rw [newLogger_Level]
  split <;> simp_all [DebugLevel, InfoLevel]

/-- The effect of `Entry.Log` in a process that has not terminated. -/
theorem Log_alive {β : Type} (e : EntryBuilder β) (now : Time) (level : Level) (msg : String)
    (w : World β) (hw : w.exit = none) :
    e.Log now level msg w =
      { calls := w.calls ++ [{ Level := level, Message := msg, Data := e.Data }],
        stdout :=
          if e.Logger.IsLevelEnabled level then
            w.stdout ++ [{ formatter := e.Logger.Formatter,
                           entry := { Time := now, Level := level, Message := msg,
                                      Data := e.Data } }]
          else w.stdout,
        exit := none } := by
  unfold EntryBuilder.Log World.call World.write
  cases w with
  | mk calls stdout exit =>
    simp only at hw
    subst hw
    by_cases h : e.Logger.IsLevelEnabled level = true <;> simp [h]

/-- What `consoleOut` does with a `DEBUG` message. -/
theorem consoleOut_DEBUG {β : Type} (env : Env) (now : Time) (render : β → String)
    (m : Message β) (w : World β) (hw : w.exit = none) (hs : m.Severity = "DEBUG") :
    consoleOut env now render m w =
      { calls := w.calls ++ [{ Level := DebugLevel, Message := "[" ++ m.Tag ++ "] " ++ render m.Body,
                               Data := [("severity", Value.str "DEBUG"), ("tag", Value.str m.Tag),
                                        ("body", Value.body m.Body),
                                        ("caller", Value.str m.Location)] }],
        stdout :=
          if Getenv env "WLOGRUS_DEBUG" = "true" then
            w.stdout ++ [{ formatter := (newLogger env).Formatter,
                           entry := { Time := now, Level := DebugLevel,
                                      Message := "[" ++ m.Tag ++ "] " ++ render m.Body,
                                      Data := [("severity", Value.str "DEBUG"),
                                               ("tag", Value.str m.Tag),
                                               ("body", Value.body m.Body),
                                               ("caller", Value.str m.Location)] } }]
          else w.stdout,
        exit := none } := by
  unfold consoleOut
  simp only [hs, if_true, EntryBuilder.Debug, EntryBuilder.WithContext, Logger.WithFields,
    entryText]
  rw [Log_alive _ _ _ _ _ hw]
  simp only [newLogger_enabled_debug, decide_eq_true_eq]

/-- What `consoleOut` does with an `INFO` message. -/
theorem consoleOut_INFO {β : Type} (env : Env) (now : Time) (render : β → String)
    (m : Message β) (w : World β) (hw : w.exit = none) (hs : m.Severity = "INFO") :
    consoleOut env now render m w =
      { calls := w.calls ++ [{ Level := InfoLevel, Message := "[" ++ m.Tag ++ "] " ++ render m.Body,
                               Data := [("severity", Value.str "INFO"), ("tag", Value.str m.Tag),
                                        ("body", Value.body m.Body)] }],
        stdout :=
          w.stdout ++ [{ formatter := (newLogger env).Formatter,
                         entry := { Time := now, Level := InfoLevel,
                                    Message := "[" ++ m.Tag ++ "] " ++ render m.Body,
                                    Data := [("severity", Value.str "INFO"),
                                             ("tag", Value.str m.Tag),
                                             ("body", Value.body m.Body)] } }],
        exit := none } := by
  unfold consoleOut
  simp only [hs, EntryBuilder.Info, EntryBuilder.WithContext, Logger.WithFields, entryText]
  rw [if_neg (by decide), if_pos True.intro, Log_alive _ _ _ _ _ hw]
  simp only [newLogger_enabled env InfoLevel (Nat.le_refl _), if_true]

/-- What `consoleOut` does with a `WARNING` message. -/
theorem consoleOut_WARNING {β : Type} (env : Env) (now : Time) (render : β → String)
    (m : Message β) (w : World β) (hw : w.exit = none) (hs : m.Severity = "WARNING") :
    consoleOut env now render m w =
      { calls := w.calls ++ [{ Level := WarnLevel, Message := "[" ++ m.Tag ++ "] " ++ render m.Body,
                               Data := [("severity", Value.str "WARNING"), ("tag", Value.str m.Tag),
                                        ("body", Value.body m.Body)] }],
        stdout :=
          w.stdout ++ [{ formatter := (newLogger env).Formatter,
                         entry := { Time := now, Level := WarnLevel,
                                    Message := "[" ++ m.Tag ++ "] " ++ render m.Body,
                                    Data := [("severity", Value.str "WARNING"),
                                             ("tag", Value.str m.Tag),
                                             ("body", Value.body m.Body)] } }],
        exit := none } := by
  unfold consoleOut
  simp only [hs, EntryBuilder.Warning, EntryBuilder.WithContext, Logger.WithFields, entryText]
  rw [if_neg (by decide), if_neg (by decide), if_pos True.intro, Log_alive _ _ _ _ _ hw]
  simp only [newLogger_enabled env WarnLevel (by decide), if_true]

/-- What `consoleOut` does with an `ERROR` message. -/
theorem consoleOut_ERROR {β : Type} (env : Env) (now : Time) (render : β → String)
    (m : Message β) (w : World β) (hw : w.exit = none) (hs : m.Severity = "ERROR") :
    consoleOut env now render m w =
      { calls := w.calls ++
          [{ Level := ErrorLevel,
             Message := "[" ++ m.Tag ++ "] " ++ render m.Body ++ " [" ++ m.Location ++ "]",
             Data := [("severity", Value.str "ERROR"), ("tag", Value.str m.Tag),
                      ("body", Value.body m.Body), ("caller", Value.str m.Location)] }],
        stdout :=
          w.stdout ++ [{ formatter := (newLogger env).Formatter,
                         entry := { Time := now, Level := ErrorLevel,
                                    Message := "[" ++ m.Tag ++ "] " ++ render m.Body
                                      ++ " [" ++ m.Location ++ "]",
                                    Data := [("severity", Value.str "ERROR"),
                                             ("tag", Value.str m.Tag),
                                             ("body", Value.body m.Body),
                                             ("caller", Value.str m.Location)] } }],
        exit := none } := by
  unfold consoleOut
  simp only [hs, EntryBuilder.Error, EntryBuilder.WithContext, Logger.WithFields, entryText]
  rw [if_neg (by decide), if_neg (by decide), if_neg (by decide), if_pos True.intro,
    Log_alive _ _ _ _ _ hw]
  simp only [newLogger_enabled env ErrorLevel (by decide), if_true]

/-- What `consoleOut` does with a `FATAL` message. -/
theorem consoleOut_FATAL {β : Type} (env : Env) (now : Time) (render : β → String)
    (m : Message β) (w : World β) (hw : w.exit = none) (hs : m.Severity = "FATAL") :
    consoleOut env now render m w =
      { calls := w.calls ++
          [{ Level := FatalLevel,
             Message := "[" ++ m.Tag ++ "] " ++ render m.Body ++ " [" ++ m.Location ++ "]",
             Data := [("severity", Value.str "FATAL"), ("tag", Value.str m.Tag),
                      ("body", Value.body m.Body), ("caller", Value.str m.Location)] }],
        stdout :=
          w.stdout ++ [{ formatter := (newLogger env).Formatter,
                         entry := { Time := now, Level := FatalLevel,
                                    Message := "[" ++ m.Tag ++ "] " ++ render m.Body
                                      ++ " [" ++ m.Location ++ "]",
                                    Data := [("severity", Value.str "FATAL"),
                                             ("tag", Value.str m.Tag),
                                             ("body", Value.body m.Body),
                                             ("caller", Value.str m.Location)] } }],
        exit := some 1 } := by
  unfold consoleOut
  simp only [hs, EntryBuilder.Fatal, EntryBuilder.WithContext, Logger.WithFields, entryText]
  rw [if_neg (by decide), if_neg (by decide), if_neg (by decide), if_neg (by decide), if_pos True.intro,
    Log_alive _ _ _ _ _ hw]
  simp only [newLogger_enabled env FatalLevel (by decide), if_true, World.Exit]

/-- What `consoleOut` does with a message of any other severity. -/
theorem consoleOut_default {β : Type} (env : Env) (now : Time) (render : β → String)
    (m : Message β) (w : World β) (hw : w.exit = none)
    (h1 : m.Severity ≠ "DEBUG") (h2 : m.Severity ≠ "INFO") (h3 : m.Severity ≠ "WARNING")
    (h4 : m.Severity ≠ "ERROR") (h5 : m.Severity ≠ "FATAL") :
    consoleOut env now render m w =
      { calls := w.calls ++ [{ Level := InfoLevel, Message := "[" ++ m.Tag ++ "] " ++ render m.Body,
                               Data := [] }],
        stdout :=
          w.stdout ++ [{ formatter := (newLogger env).Formatter,
                         entry := { Time := now, Level := InfoLevel,
                                    Message := "[" ++ m.Tag ++ "] " ++ render m.Body,
                                    Data := [] } }],
        exit := none } := by
  unfold consoleOut
  simp only [h1, h2, h3, h4, h5, if_false, EntryBuilder.Info, Logger.WithContext, entryText]
  rw [Log_alive _ _ _ _ _ hw]
  simp only [newLogger_enabled env InfoLevel (Nat.le_refl _), if_true]

/-- A terminated process: `Entry.Log` changes nothing. -/
theorem Log_dead {β : Type} (e : EntryBuilder β) (now : Time) (level : Level) (msg : String)
    (w : World β) (k : Nat) (hw : w.exit = some k) :
    e.Log now level msg w = w := by
  unfold EntryBuilder.Log World.call World.write
  simp only [hw]
  split <;> rfl

/-- A terminated process: `consoleOut` changes nothing. -/
theorem consoleOut_dead {β : Type} (env : Env) (now : Time) (render : β → String)
    (m : Message β) (w : World β) (k : Nat) (hw : w.exit = some k) :
    consoleOut env now render m w = w := by
  unfold consoleOut
  simp only [EntryBuilder.Debug, EntryBuilder.Info, EntryBuilder.Warning, EntryBuilder.Error,
    EntryBuilder.Fatal, Log_dead _ _ _ _ _ k hw, World.Exit, hw]
  repeat' split
  all_goals rfl

theorem Getenv_eq_true_iff (env : Env) (key : String) :
    Getenv env key = "true" ↔ env key = some "true" := by
  unfold Getenv
  cases h : env key with
  | none => simp only [Option.getD_none]; constructor <;> intro h' <;> simp at h'
  | some v => simp only [Option.getD_some, Option.some.injEq]

/-- The layout of the package, `2006-01-02 15:04:05`, renders the timestamp
of the specification. -/
theorem Format_layout (t : Time) : t.Format textFormatter.TimestampFormat = timestamp t := by
  unfold Time.Format timestamp textFormatter
  congr 1
  show formatLayout t ['2', '0', '0', '6', '-', '0', '1', '-', '0', '2', ' ', '1', '5', ':',
    '0', '4', ':', '0', '5'] = _
  simp only [formatLayout, List.append_assoc, List.singleton_append, List.append_nil,
    List.nil_append, List.cons_append]

/-- The bytes of a record of the text formatter are the first result of
`Format`. -/
theorem Record_bytes_text {β : Type} (jsonFormat : Entry β → String × Option String)
    (f : TextFormatter) (e : Entry β) :
    Record.bytes jsonFormat { formatter := Formatter.logFormatter f, entry := e }
      = (Format f e).1 := rfl

theorem String_join_snoc (l : List String) (x : String) :
    String.join (l ++ [x]) = String.join l ++ x := by
  unfold String.join
  rw [List.foldl_append]
  rfl

/-- The bytes on the output after one more record. -/
theorem bytes_snoc {β : Type} (jsonFormat : Entry β → String × Option String)
    (calls : List (LogCall β)) (out : List (Record β)) (r : Record β) (exit : Option Nat) :
    World.bytes jsonFormat { calls := calls, stdout := out ++ [r], exit := exit }
      = String.join (out.map (Record.bytes jsonFormat)) ++ Record.bytes jsonFormat r := by
  unfold World.bytes
  simp only [List.map_append, List.map_cons, List.map_nil]
  exact String_join_snoc _ _

/-- The result of `Format` with the formatter of the package, its format
string split at the verbs. -/
theorem Format_eq {β : Type} (entry : Entry β) :
    Format textFormatter entry =
      (timestamp entry.Time ++ " [" ++ "\x1b" ++ "[" ++ Nat.repr (levelColor entry.Level) ++ "m"
        ++ ToUpper (levelString entry.Level) ++ "\x1b" ++ "[0m] " ++ entry.Message ++ "\n",
       none) := by
  unfold Format
  rw [Format_layout]
  refine congrArg (fun s => (s, (none : Option String))) ?_
  apply String.ext
  simp only [String.data_append, List.append_assoc, List.cons_append, List.nil_append]

/-- A number below `10 ^ width` is rendered on exactly `width` characters. -/
theorem appendInt_length (n width : Nat) (hw : 0 < width) (hn : n < 10 ^ width) :
    (appendInt n width).length = width := by
  have h := Nat.repr_length n width hw hn
  unfold appendInt
  rw [List.length_append, List.length_replicate]
  have h2 : (Nat.repr n).data.length = (Nat.repr n).length := rfl
  omega

/-- The timestamp of a clock reading with a year below 10000 has the 19
characters of `YYYY-MM-DD HH:MM:SS`. -/
theorem timestamp_length (t : Time) (hy : t.year < 10000) (hmo : t.month < 100)
    (hd : t.day < 100) (hh : t.hour < 100) (hmi : t.minute < 100) (hs : t.second < 100) :
    (timestamp t).length = 19 := by
  have e : (timestamp t).length = (timestamp t).data.length := rfl
  rw [e]
  unfold timestamp
  simp only [List.length_append, List.length_singleton,
    appendInt_length t.year 4 (by decide) hy, appendInt_length t.month 2 (by decide) hmo,
    appendInt_length t.day 2 (by decide) hd, appendInt_length t.hour 2 (by decide) hh,
    appendInt_length t.minute 2 (by decide) hmi, appendInt_length t.second 2 (by decide) hs]

/-- The formatter is chosen by `WLOGRUS_JSON` alone: every record `consoleOut`
emits goes to `logrus.JSONFormatter` when the variable is exactly `"true"`,
and to the text formatter of the package otherwise. -/
theorem formatter_selection {β : Type} (env : Env) (now : Time) (render : β → String)
    (m : Message β) (w : World β) (hw : w.exit = none) (r : Record β)
    (hr : (consoleOut env now render m w).stdout = w.stdout ++ [r]) :
    r.formatter =
      if env "WLOGRUS_JSON" = some "true" then Formatter.JSONFormatter
      else Formatter.logFormatter textFormatter := by
  have hsel : (newLogger env).Formatter =
      if env "WLOGRUS_JSON" = some "true" then Formatter.JSONFormatter
      else Formatter.logFormatter textFormatter := by
    rw [newLogger_Formatter]
    simp only [Getenv_eq_true_iff]
  have inj : ∀ r0 : Record β, w.stdout ++ [r0] = w.stdout ++ [r] →
      r0.formatter = (newLogger env).Formatter → r.formatter = (newLogger env).Formatter := by
    intro r0 h h0
    have := List.append_cancel_left h
    simp only [List.cons.injEq, and_true] at this
    rw [← this, h0]
  rw [← hsel]
  by_cases h1 : m.Severity = "DEBUG"
  · rw [consoleOut_DEBUG env now render m w hw h1] at hr
    by_cases hd : Getenv env "WLOGRUS_DEBUG" = "true"
    · simp only [if_pos hd] at hr
      exact inj _ hr rfl
    · simp only [if_neg hd] at hr
      have := congrArg List.length hr
      simp at this
  by_cases h2 : m.Severity = "INFO"
  · rw [consoleOut_INFO env now render m w hw h2] at hr
    exact inj _ hr rfl
  by_cases h3 : m.Severity = "WARNING"
  · rw [consoleOut_WARNING env now render m w hw h3] at hr
    exact inj _ hr rfl
  by_cases h4 : m.Severity = "ERROR"
  · rw [consoleOut_ERROR env now render m w hw h4] at hr
    exact inj _ hr rfl
  by_cases h5 : m.Severity = "FATAL"
  · rw [consoleOut_FATAL env now render m w hw h5] at hr
    exact inj _ hr rfl
  rw [consoleOut_default env now render m w hw h1 h2 h3 h4 h5] at hr
  exact inj _ hr rfl

/-- The line `Format` returns is never empty: it ends with a newline. -/
theorem Format_ne_empty {β : Type} (f : TextFormatter) (e : Entry β) : (Format f e).1 ≠ "" := by
  intro h
  have h2 := congrArg String.data h
  unfold Format at h2
  simp only [String.data_append] at h2
  have h3 := congrArg List.length h2
  simp only [List.length_append] at h3
  simp only [List.length_cons, List.length_nil] at h3
  omega

/-- The bytes of a record of the JSON formatter: its result, or nothing when
it reports an error. -/
theorem Record_bytes_json {β : Type} (jsonFormat : Entry β → String × Option String)
    (e : Entry β) :
    Record.bytes jsonFormat { formatter := Formatter.JSONFormatter, entry := e }
      = match (jsonFormat e).2 with
        | none => (jsonFormat e).1
        | some _ => "" := rfl

/-! ## The claims -/

/-- C1: the message `consoleOut` hands to the logger. For the severities
DEBUG, INFO and WARNING the call made on the logger carries exactly
`"[" ++ tag ++ "] " ++ render body`; for ERROR and FATAL it carries exactly
`"[" ++ tag ++ "] " ++ render body ++ " [" ++ location ++ "]"`. In all five
cases the message contains the bracketed tag and the rendering of the body,
for ERROR and FATAL it ends with the bracketed location, and a record that
reaches the output carries the same message. -/
theorem consoleOut_message {β : Type} (env : Env) (now : Time) (render : β → String)
    (m : Message β) (w : World β) (hw : w.exit = none) :
    ((m.Severity = "DEBUG" ∨ m.Severity = "INFO" ∨ m.Severity = "WARNING") →
      ∃ c, (consoleOut env now render m w).calls = w.calls ++ [c] ∧
        c.Message = "[" ++ m.Tag ++ "] " ++ render m.Body ∧
        ("[" ++ m.Tag ++ "]").data <:+: c.Message.data ∧
        (render m.Body).data <:+: c.Message.data ∧
        ((consoleOut env now render m w).stdout = w.stdout ∨
          ∃ r, (consoleOut env now render m w).stdout = w.stdout ++ [r] ∧
            r.entry.Message = c.Message)) ∧
    ((m.Severity = "ERROR" ∨ m.Severity = "FATAL") →
      ∃ c, (consoleOut env now render m w).calls = w.calls ++ [c] ∧
        c.Message = "[" ++ m.Tag ++ "] " ++ render m.Body ++ " [" ++ m.Location ++ "]" ∧
        ("[" ++ m.Tag ++ "]").data <:+: c.Message.data ∧
        (render m.Body).data <:+: c.Message.data ∧
        ("[" ++ m.Location ++ "]").data <:+ c.Message.data ∧
        ∃ r, (consoleOut env now render m w).stdout = w.stdout ++ [r] ∧
          r.entry.Message = c.Message) := by
  have hin1 : ("[" ++ m.Tag ++ "]").data <:+: ("[" ++ m.Tag ++ "] " ++ render m.Body).data :=
    ⟨[], (" " ++ render m.Body).data, by simp [String.data_append]⟩
  have hin2 : (render m.Body).data <:+: ("[" ++ m.Tag ++ "] " ++ render m.Body).data :=
    ⟨("[" ++ m.Tag ++ "] ").data, [], by simp [String.data_append]⟩
  have hin3 : ("[" ++ m.Tag ++ "]").data <:+:
      ("[" ++ m.Tag ++ "] " ++ render m.Body ++ " [" ++ m.Location ++ "]").data :=
    ⟨[], (" " ++ render m.Body ++ " [" ++ m.Location ++ "]").data,
      by simp [String.data_append]⟩
  have hin4 : (render m.Body).data <:+:
      ("[" ++ m.Tag ++ "] " ++ render m.Body ++ " [" ++ m.Location ++ "]").data :=
    ⟨("[" ++ m.Tag ++ "] ").data, (" [" ++ m.Location ++ "]").data,
      by simp [String.data_append]⟩
  have hsuf : ("[" ++ m.Location ++ "]").data <:+
      ("[" ++ m.Tag ++ "] " ++ render m.Body ++ " [" ++ m.Location ++ "]").data :=
    ⟨("[" ++ m.Tag ++ "] " ++ render m.Body ++ " ").data, by simp [String.data_append]⟩
  constructor
  · rintro (hs | hs | hs)
    · rw [consoleOut_DEBUG env now render m w hw hs]
      refine ⟨_, rfl, rfl, hin1, hin2, ?_⟩
      by_cases hd : Getenv env "WLOGRUS_DEBUG" = "true"
      · right
        rw [if_pos hd]
        exact ⟨_, rfl, rfl⟩
      · left
        rw [if_neg hd]
    · rw [consoleOut_INFO env now render m w hw hs]
      exact ⟨_, rfl, rfl, hin1, hin2, Or.inr ⟨_, rfl, rfl⟩⟩
    · rw [consoleOut_WARNING env now render m w hw hs]
      exact ⟨_, rfl, rfl, hin1, hin2, Or.inr ⟨_, rfl, rfl⟩⟩
  · rintro (hs | hs)
    · rw [consoleOut_ERROR env now render m w hw hs]
      exact ⟨_, rfl, rfl, hin3, hin4, hsuf, _, rfl, rfl⟩
    · rw [consoleOut_FATAL env now render m w hw hs]
      exact ⟨_, rfl, rfl, hin3, hin4, hsuf, _, rfl, rfl⟩

/-- Witness of C1: `Error("db", "connection refused", "db.go.Connect:42")` in
a fresh process hands the logger a message that ends in
`[db.go.Connect:42]`. -/
theorem consoleOut_message_witness :
    (World.init : World String).exit = none ∧
    ∃ c, (consoleOut emptyEnv sampleTime id
        { Severity := "ERROR", Tag := "db", Body := "connection refused",
          Location := "db.go.Connect:42" } World.init).calls = [] ++ [c] ∧
      c.Message = "[db] connection refused [db.go.Connect:42]" :=
  ⟨rfl, by
    obtain ⟨c, h1, h2, _⟩ :=
      (consoleOut_message emptyEnv sampleTime id
        { Severity := "ERROR", Tag := "db", Body := "connection refused",
          Location := "db.go.Connect:42" } World.init rfl).2 (Or.inl rfl)
    exact ⟨c, h1, h2.trans (by decide)⟩⟩

/-- Counterexample to C2: `Error("db", "connection refused", "")` has the
empty string as its location, and yet the record it emits has the four
fields severity, tag, body and caller (caller holding the empty string), not
the three fields severity, tag and body. -/
theorem caller_field_with_empty_location :
    ∃ r, (Error emptyEnv sampleTime id "db" "connection refused" "" World.init).stdout = [r] ∧
      r.entry.Data = [("severity", Value.str "ERROR"), ("tag", Value.str "db"),
                      ("body", Value.body "connection refused"), ("caller", Value.str "")] ∧
      "caller" ∈ r.entry.Data.keys ∧
      r.entry.Data.keys ≠ ["severity", "tag", "body"] := by
  refine ⟨_, (congrArg World.stdout
    (consoleOut_ERROR emptyEnv sampleTime id _ World.init rfl rfl)), rfl, ?_, ?_⟩
  · decide
  · decide

/-- C2, amended: the fields depend on the entry point, not on the location.
`Info` and `Warn` attach exactly severity, tag and body; `Debug`, `Error` and
`Fatal` attach exactly severity, tag, body and caller, with caller holding
the location, whether or not the location is empty. The fields are those of
the call made on the logger and of the record that reaches the output. -/
theorem fields_by_entry_point {β : Type} (env : Env) (now : Time) (render : β → String)
    (tag : String) (body : β) (location : String) (w : World β) (hw : w.exit = none) :
    (∃ c r, (Info env now render tag body w).calls = w.calls ++ [c] ∧
        (Info env now render tag body w).stdout = w.stdout ++ [r] ∧
        c.Data = [("severity", Value.str "INFO"), ("tag", Value.str tag),
                  ("body", Value.body body)] ∧
        r.entry.Data = c.Data) ∧
    (∃ c r, (Warn env now render tag body w).calls = w.calls ++ [c] ∧
        (Warn env now render tag body w).stdout = w.stdout ++ [r] ∧
        c.Data = [("severity", Value.str "WARNING"), ("tag", Value.str tag),
                  ("body", Value.body body)] ∧
        r.entry.Data = c.Data) ∧
    (∃ c r, (Error env now render tag body location w).calls = w.calls ++ [c] ∧
        (Error env now render tag body location w).stdout = w.stdout ++ [r] ∧
        c.Data = [("severity", Value.str "ERROR"), ("tag", Value.str tag),
                  ("body", Value.body body), ("caller", Value.str location)] ∧
        r.entry.Data = c.Data) ∧
    (∃ c r, (Fatal env now render tag body location w).calls = w.calls ++ [c] ∧
        (Fatal env now render tag body location w).stdout = w.stdout ++ [r] ∧
        c.Data = [("severity", Value.str "FATAL"), ("tag", Value.str tag),
                  ("body", Value.body body), ("caller", Value.str location)] ∧
        r.entry.Data = c.Data) ∧
    (∃ c, (Debug env now render tag body location w).calls = w.calls ++ [c] ∧
        c.Data = [("severity", Value.str "DEBUG"), ("tag", Value.str tag),
                  ("body", Value.body body), ("caller", Value.str location)] ∧
        ((Debug env now render tag body location w).stdout = w.stdout ∨
          ∃ r, (Debug env now render tag body location w).stdout = w.stdout ++ [r] ∧
            r.entry.Data = c.Data)) := by
  refine ⟨?_, ?_, ?_, ?_, ?_⟩
  · unfold Info
    rw [consoleOut_INFO env now render _ w hw rfl]
    exact ⟨_, _, rfl, rfl, rfl, rfl⟩
  · unfold Warn
    rw [consoleOut_WARNING env now render _ w hw rfl]
    exact ⟨_, _, rfl, rfl, rfl, rfl⟩
  · unfold Error
    rw [consoleOut_ERROR env now render _ w hw rfl]
    exact ⟨_, _, rfl, rfl, rfl, rfl⟩
  · unfold Fatal
    rw [consoleOut_FATAL env now render _ w hw rfl]
    exact ⟨_, _, rfl, rfl, rfl, rfl⟩
  · unfold Debug
    rw [consoleOut_DEBUG env now render _ w hw rfl]
    refine ⟨_, rfl, rfl, ?_⟩
    by_cases hd : Getenv env "WLOGRUS_DEBUG" = "true"
    · right
      rw [if_pos hd]
      exact ⟨_, rfl, rfl⟩
    · left
      rw [if_neg hd]

/-- Witness of the amended C2: `Debug("db", "retry", "")` with debugging
enabled emits a record whose fields include caller, holding `""`. -/
theorem fields_by_entry_point_witness :
    (World.init : World String).exit = none ∧
    ∃ c, (Debug (singleEnv "WLOGRUS_DEBUG" "true") sampleTime id "db" "retry" ""
        World.init).calls = [] ++ [c] ∧
      c.Data = [("severity", Value.str "DEBUG"), ("tag", Value.str "db"),
                ("body", Value.body "retry"), ("caller", Value.str "")] :=
  ⟨rfl, by
    obtain ⟨c, h1, h2, _⟩ :=
      (fields_by_entry_point (singleEnv "WLOGRUS_DEBUG" "true") sampleTime id "db" "retry" ""
        World.init rfl).2.2.2.2
    exact ⟨c, h1, h2⟩⟩

/-- Counterexample to C3: with `WLOGRUS_DEBUG` and `WLOGRUS_JSON` both
`"true"`, `Debug("db", make(chan int), "db.go.Connect:42")` hands one record
to the JSON formatter, the formatter fails on the channel, and not a byte
reaches the output: no record is written. -/
theorem Debug_chan_body_writes_nothing :
    debugJsonEnv "WLOGRUS_DEBUG" = some "true" ∧
    debugJsonEnv "WLOGRUS_JSON" = some "true" ∧
    (Debug debugJsonEnv sampleTime GoValue.render "db" (GoValue.chan "int" "0xc00001c0c0")
      "db.go.Connect:42" World.init).stdout.length = 1 ∧
    (Debug debugJsonEnv sampleTime GoValue.render "db" (GoValue.chan "int" "0xc00001c0c0")
      "db.go.Connect:42" World.init).bytes (JSONFormat sampleEncode) = "" := by
  refine ⟨by decide, by decide, ?_, ?_⟩
  · unfold Debug
    rw [consoleOut_DEBUG debugJsonEnv sampleTime GoValue.render _ World.init rfl rfl]
    rfl
  · unfold Debug
    rw [consoleOut_DEBUG debugJsonEnv sampleTime GoValue.render _ World.init rfl rfl]
    have hd : Getenv debugJsonEnv "WLOGRUS_DEBUG" = "true" := by decide
    have hf : (newLogger debugJsonEnv).Formatter = Formatter.JSONFormatter := by
      rw [newLogger_Formatter]
      decide
    rw [if_pos hd, hf, bytes_snoc]
    rfl

/-- C3, amended: the debug gate. When `WLOGRUS_DEBUG` is unset or holds
anything but exactly `"true"`, a `Debug` call leaves the output as it was, so
no byte is written. When it is exactly `"true"`, the call hands exactly one
record, at debug level, to the formatter `WLOGRUS_JSON` selects. In text mode
that writes exactly one line, the result of `Format`, which is never empty
and never an error. In JSON mode it writes exactly the bytes of the JSON
formatter when that reports no error, and nothing when it reports one. -/
theorem Debug_gate {β : Type} (env : Env) (now : Time) (render : β → String)
    (tag : String) (body : β) (location : String) (w : World β) :
    (env "WLOGRUS_DEBUG" ≠ some "true" →
      (Debug env now render tag body location w).stdout = w.stdout ∧
      ∀ jsonFormat, (Debug env now render tag body location w).bytes jsonFormat
        = w.bytes jsonFormat) ∧
    (env "WLOGRUS_DEBUG" = some "true" → w.exit = none →
      ∃ r, (Debug env now render tag body location w).stdout = w.stdout ++ [r] ∧
        r.entry.Time = now ∧ r.entry.Level = DebugLevel ∧
        r.entry.Message = "[" ++ tag ++ "] " ++ render body ∧
        r.formatter =
          (if env "WLOGRUS_JSON" = some "true" then Formatter.JSONFormatter
           else Formatter.logFormatter textFormatter) ∧
        ∀ jsonFormat : Entry β → String × Option String,
          (env "WLOGRUS_JSON" ≠ some "true" →
            (Debug env now render tag body location w).bytes jsonFormat
              = w.bytes jsonFormat ++ (Format textFormatter r.entry).1 ∧
            (Format textFormatter r.entry).2 = none ∧
            (Format textFormatter r.entry).1 ≠ "") ∧
          (env "WLOGRUS_JSON" = some "true" →
            ((jsonFormat r.entry).2 = none →
              (Debug env now render tag body location w).bytes jsonFormat
                = w.bytes jsonFormat ++ (jsonFormat r.entry).1) ∧
            ((jsonFormat r.entry).2 ≠ none →
              (Debug env now render tag body location w).bytes jsonFormat
                = w.bytes jsonFormat))) := by
  constructor
  · intro hd
    have hd2 : ¬ Getenv env "WLOGRUS_DEBUG" = "true" := fun h =>
      hd ((Getenv_eq_true_iff env _).1 h)
    have hout : (Debug env now render tag body location w).stdout = w.stdout := by
      unfold Debug
      cases hw : w.exit with
      | some k => rw [consoleOut_dead env now render _ w k hw]
      | none =>
        rw [consoleOut_DEBUG env now render _ w hw rfl]
        simp only [if_neg hd2]
    refine ⟨hout, fun jsonFormat => ?_⟩
    unfold World.bytes
    rw [hout]
  · intro hd hw
    have hd2 : Getenv env "WLOGRUS_DEBUG" = "true" := (Getenv_eq_true_iff env _).2 hd
    unfold Debug
    rw [consoleOut_DEBUG env now render _ w hw rfl]
    simp only [if_pos hd2]
    refine ⟨_, rfl, rfl, rfl, rfl, ?_, ?_⟩
    · simp only [newLogger_Formatter, Getenv_eq_true_iff]
    · intro jsonFormat
      constructor
      · intro hj
        have hf : (newLogger env).Formatter = Formatter.logFormatter textFormatter := by
          rw [newLogger_Formatter, if_neg]
          exact fun h => hj ((Getenv_eq_true_iff env _).1 h)
        rw [hf, bytes_snoc, Record_bytes_text]
        exact ⟨rfl, rfl, Format_ne_empty _ _⟩
      · intro hj
        have hf : (newLogger env).Formatter = Formatter.JSONFormatter := by
          rw [newLogger_Formatter, if_pos ((Getenv_eq_true_iff env _).2 hj)]
        rw [hf, bytes_snoc, Record_bytes_json]
        constructor
        · intro hok
          rw [hok]
          rfl
        · intro herr
          cases hres : (jsonFormat _).2 with
          | none => exact absurd hres herr
          | some v => exact String.append_empty _

/-- Witness of the amended C3: with `WLOGRUS_DEBUG` unset, set to `"TRUE"`, to
`"1"` or to the empty string, `Debug` writes nothing in a fresh process; with
`"true"` and the text formatter it writes one line. -/
theorem Debug_gate_witness :
    (Debug emptyEnv sampleTime id "db" "retry" "db.go.Connect:42" World.init).stdout = [] ∧
    (Debug (singleEnv "WLOGRUS_DEBUG" "TRUE") sampleTime id "db" "retry" "db.go.Connect:42"
      World.init).stdout = [] ∧
    (Debug (singleEnv "WLOGRUS_DEBUG" "1") sampleTime id "db" "retry" "db.go.Connect:42"
      World.init).stdout = [] ∧
    (Debug (singleEnv "WLOGRUS_DEBUG" "") sampleTime id "db" "retry" "db.go.Connect:42"
      World.init).stdout = [] ∧
    (Debug (singleEnv "WLOGRUS_DEBUG" "true") sampleTime id "db" "retry" "db.go.Connect:42"
      World.init).bytes (fun _ => ("", none))
      = "2024-03-09 07:05:01 [\x1b[44mDEBUG\x1b[0m] [db] retry\n" := by
  refine ⟨?_, ?_, ?_, ?_, ?_⟩
  · exact ((Debug_gate emptyEnv sampleTime id "db" "retry" "db.go.Connect:42"
      World.init).1 (by decide)).1
  · exact ((Debug_gate (singleEnv "WLOGRUS_DEBUG" "TRUE") sampleTime id "db" "retry"
      "db.go.Connect:42" World.init).1 (by decide)).1
  · exact ((Debug_gate (singleEnv "WLOGRUS_DEBUG" "1") sampleTime id "db" "retry"
      "db.go.Connect:42" World.init).1 (by decide)).1
  · exact ((Debug_gate (singleEnv "WLOGRUS_DEBUG" "") sampleTime id "db" "retry"
      "db.go.Connect:42" World.init).1 (by decide)).1
  · obtain ⟨r, _, h1, h2, h3, _, h5⟩ := (Debug_gate (singleEnv "WLOGRUS_DEBUG" "true")
      sampleTime id "db" "retry" "db.go.Connect:42" World.init).2 (by decide) rfl
    rw [((h5 (fun _ => ("", none))).1 (by decide)).1, Format_eq, h1, h2, h3]
    decide

/-- C4: `Fatal` emits, then exits. In a running process a `Fatal` call
appends exactly one record at fatal level, whatever the environment, and then
requests exit status 1: its result is `Exit 1` applied to a state that is
still running and already holds the record. None of `Info`, `Warn`, `Error`
and `Debug` terminates the process. For the dispatcher: the result of
`consoleOut` carries an exit request if and only if the severity is `FATAL`,
the status is then 1 and the record has been appended. -/
theorem Fatal_emits_then_exits {β : Type} (env : Env) (now : Time) (render : β → String)
    (tag : String) (body : β) (location : String) (w : World β) (hw : w.exit = none) :
    (∃ (r : Record β) (w1 : World β), w1.exit = none ∧ w1.stdout = w.stdout ++ [r] ∧ r.entry.Level = FatalLevel ∧
      Fatal env now render tag body location w = w1.Exit 1 ∧
      (Fatal env now render tag body location w).stdout = w.stdout ++ [r] ∧
      (Fatal env now render tag body location w).exit = some 1) ∧
    (Info env now render tag body w).exit = none ∧
    (Warn env now render tag body w).exit = none ∧
    (Error env now render tag body location w).exit = none ∧
    (Debug env now render tag body location w).exit = none ∧
    (∀ m : Message β,
      ((consoleOut env now render m w).exit = some 1 ↔ m.Severity = "FATAL") ∧
      ((consoleOut env now render m w).exit ≠ none ↔ m.Severity = "FATAL") ∧
      (m.Severity = "FATAL" →
        ∃ r, (consoleOut env now render m w).stdout = w.stdout ++ [r] ∧
          r.entry.Level = FatalLevel)) := by
  refine ⟨?_, ?_, ?_, ?_, ?_, ?_⟩
  · unfold Fatal
    rw [consoleOut_FATAL env now render _ w hw rfl]
    exact ⟨_, World.mk _ (w.stdout ++ [_]) none, rfl, rfl, rfl, rfl, rfl, rfl⟩
  · unfold Info
    rw [consoleOut_INFO env now render _ w hw rfl]
  · unfold Warn
    rw [consoleOut_WARNING env now render _ w hw rfl]
  · unfold Error
    rw [consoleOut_ERROR env now render _ w hw rfl]
  · unfold Debug
    rw [consoleOut_DEBUG env now render _ w hw rfl]
  · intro m
    by_cases h5 : m.Severity = "FATAL"
    · rw [consoleOut_FATAL env now render m w hw h5]
      simp only [h5, iff_true, ne_eq, not_false_eq_true, true_implies]
      exact ⟨trivial, by simp, _, rfl, rfl⟩
    · have hex : (consoleOut env now render m w).exit = none := by
        by_cases h1 : m.Severity = "DEBUG"
        · rw [consoleOut_DEBUG env now render m w hw h1]
        by_cases h2 : m.Severity = "INFO"
        · rw [consoleOut_INFO env now render m w hw h2]
        by_cases h3 : m.Severity = "WARNING"
        · rw [consoleOut_WARNING env now render m w hw h3]
        by_cases h4 : m.Severity = "ERROR"
        · rw [consoleOut_ERROR env now render m w hw h4]
        rw [consoleOut_default env now render m w hw h1 h2 h3 h4 h5]
      rw [hex]
      simp [h5]

/-- Witness of C4: `Fatal("db", "connection refused", "db.go.Connect:42")` in a
fresh process, with no variable set, ends with one record on the output and
exit status 1. -/
theorem Fatal_emits_then_exits_witness :
    (World.init : World String).exit = none ∧
    (Fatal emptyEnv sampleTime id "db" "connection refused" "db.go.Connect:42"
      World.init).exit = some 1 ∧
    (Fatal emptyEnv sampleTime id "db" "connection refused" "db.go.Connect:42"
      World.init).stdout.length = 1 :=
  ⟨rfl, by
    obtain ⟨r, w1, _, _, _, _, h5, h6⟩ :=
      (Fatal_emits_then_exits emptyEnv sampleTime id "db" "connection refused"
        "db.go.Connect:42" World.init rfl).1
    exact ⟨h6, by rw [h5]; rfl⟩⟩

/-- C5: the text formatter. For every entry, `Format` reports no error and
returns exactly timestamp, `" ["`, ESC `[`, the color in decimal, `m`, the
upper-case level name, ESC `[0m] `, the message and a newline, where the
timestamp is the entry time as `YYYY-MM-DD HH:MM:SS`. The color is 44 for
debug and trace, 33 for warn, 31 for error, 41 for fatal and panic, and 36
for every other level, info among them. `Info("startup", "server ready")` in
a fresh process with no variable set writes the timestamp followed by
`INFO` in color 36 and `[startup] server ready` and one newline. The
timestamp of the sample clock reading is `2024-03-09 07:05:01`, and up to the
year 9999 a timestamp has 19 characters. -/
theorem Format_text {β : Type} (entry : Entry β) :
    Format textFormatter entry =
      (timestamp entry.Time ++ " [" ++ "\x1b" ++ "[" ++ Nat.repr (levelColor entry.Level) ++ "m"
        ++ ToUpper (levelString entry.Level) ++ "\x1b" ++ "[0m] " ++ entry.Message ++ "\n",
       none) ∧
    (levelColor DebugLevel = 44 ∧ levelColor TraceLevel = 44 ∧ levelColor WarnLevel = 33 ∧
      levelColor ErrorLevel = 31 ∧ levelColor FatalLevel = 41 ∧ levelColor PanicLevel = 41 ∧
      levelColor InfoLevel = 36 ∧
      ∀ level : Level, level ≠ DebugLevel → level ≠ TraceLevel → level ≠ WarnLevel →
        level ≠ ErrorLevel → level ≠ FatalLevel → level ≠ PanicLevel → levelColor level = 36) ∧
    (ToUpper (levelString PanicLevel) = "PANIC" ∧ ToUpper (levelString FatalLevel) = "FATAL" ∧
      ToUpper (levelString ErrorLevel) = "ERROR" ∧ ToUpper (levelString WarnLevel) = "WARNING" ∧
      ToUpper (levelString InfoLevel) = "INFO" ∧ ToUpper (levelString DebugLevel) = "DEBUG" ∧
      ToUpper (levelString TraceLevel) = "TRACE") ∧
    (∀ (now : Time) (jsonFormat : Entry String → String × Option String),
      (Info emptyEnv now id "startup" "server ready" World.init).bytes jsonFormat =
        timestamp now ++ " [\x1b[36mINFO\x1b[0m] [startup] server ready\n") ∧
    timestamp sampleTime = "2024-03-09 07:05:01" ∧
    (∀ t : Time, t.year < 10000 → t.month < 100 → t.day < 100 → t.hour < 100 →
      t.minute < 100 → t.second < 100 → (timestamp t).length = 19) := by
  refine ⟨Format_eq entry, ?_, ?_, ?_, by decide, timestamp_length⟩
  · have h1 : levelColor DebugLevel = 44 := by decide
    have h2 : levelColor TraceLevel = 44 := by decide
    have h3 : levelColor WarnLevel = 33 := by decide
    have h4 : levelColor ErrorLevel = 31 := by decide
    have h5 : levelColor FatalLevel = 41 := by decide
    have h6 : levelColor PanicLevel = 41 := by decide
    have h7 : levelColor InfoLevel = 36 := by decide
    refine ⟨h1, h2, h3, h4, h5, h6, h7, ?_⟩
    intro level g1 g2 g3 g4 g5 g6
    unfold levelColor
    simp only [g1, g2, g3, g4, g5, g6, or_self, if_false]
  · have h1 : ToUpper (levelString PanicLevel) = "PANIC" := by decide
    have h2 : ToUpper (levelString FatalLevel) = "FATAL" := by decide
    have h3 : ToUpper (levelString ErrorLevel) = "ERROR" := by decide
    have h4 : ToUpper (levelString WarnLevel) = "WARNING" := by decide
    have h5 : ToUpper (levelString InfoLevel) = "INFO" := by decide
    have h6 : ToUpper (levelString DebugLevel) = "DEBUG" := by decide
    have h7 : ToUpper (levelString TraceLevel) = "TRACE" := by decide
    exact ⟨h1, h2, h3, h4, h5, h6, h7⟩
  · intro now jsonFormat
    unfold Info
    rw [consoleOut_INFO emptyEnv now id _ World.init rfl rfl]
    have hf : (newLogger emptyEnv).Formatter = Formatter.logFormatter textFormatter := by
      rw [newLogger_Formatter]
      decide
    rw [hf]
    rw [bytes_snoc, Record_bytes_text, Format_eq]
    have hc : Nat.repr (levelColor InfoLevel) = "36" := by decide
    have hu : ToUpper (levelString InfoLevel) = "INFO" := by decide
    simp only [hc, hu]
    apply String.ext
    simp only [World.init, List.map_nil, String.join, List.foldl, String.data_append,
      List.append_assoc, List.cons_append, List.nil_append, id]

/-- Witness of C5: an error entry logged at the sample clock reading. -/
theorem Format_text_witness :
    Format textFormatter sampleEntry
      = ("2024-03-09 07:05:01 [\x1b[31mERROR\x1b[0m] [db] connection refused [db.go.Connect:42]\n",
         none) ∧
    (timestamp sampleTime).length = 19 :=
  ⟨(Format_text sampleEntry).1.trans (by decide),
    (Format_text sampleEntry).2.2.2.2.2 sampleTime (by decide) (by decide) (by decide)
      (by decide) (by decide) (by decide)⟩

/-- C7: the format of `CallerInfo`. When the frame at the requested depth
resolves to a program counter, file and line, and the program counter to a
function name, `CallerInfo` returns exactly the base name of the file, a dot,
the base name of the function name, a colon and the line in decimal. Called
without a depth it does what `CallerInfo(1)` does, so that, the frame at depth
1 being the one of the function that invoked `CallerInfo`, the result starts
with the base name of that function's source file and ends with its line, a
positive number when the line of the frame is. -/
theorem CallerInfo_format (rt : Runtime) (depth : Int) (rest : List Int) (pc line : Nat)
    (file fn : String) (hc : rt.Caller depth = some (pc, file, line))
    (hf : runtimeFuncForPC rt pc = some fn) :
    CallerInfo rt (some (depth :: rest))
      = some (Base file ++ "." ++ Base fn ++ ":" ++ Nat.repr line) ∧
    CallerInfo rt none = CallerInfo rt (some [1]) ∧
    (depth = 1 →
      ∃ r, CallerInfo rt none = some r ∧
        r = Base file ++ "." ++ Base fn ++ ":" ++ Nat.repr line ∧
        (Base file).data <+: r.data ∧
        (0 < line → ∃ n : Nat, 0 < n ∧ (":" ++ Nat.repr n).data <:+ r.data)) := by
  have h1 : CallerInfo rt (some (depth :: rest))
      = some (Base file ++ "." ++ Base fn ++ ":" ++ Nat.repr line) := by
    simp only [CallerInfo, List.head?_cons, runtimeCaller, hc, hf, FuncName, Option.getD_some]
  have h2 : CallerInfo rt none = CallerInfo rt (some [1]) := rfl
  refine ⟨h1, h2, ?_⟩
  intro hd
  subst hd
  refine ⟨_, ?_, rfl, ?_, ?_⟩
  · rw [h2]
    simp only [CallerInfo, List.head?_cons, runtimeCaller, hc, hf, FuncName, Option.getD_some]
  · exact ⟨("." ++ Base fn ++ ":" ++ Nat.repr line).data, by
      simp only [String.data_append, List.append_assoc]⟩
  · intro hl
    exact ⟨line, hl, (Base file ++ "." ++ Base fn).data, by
      simp only [String.data_append, List.append_assoc]⟩

/-- Witness of C7: on the sample call stack, `CallerInfo()` called by `Connect`
in `db.go` at line 42 returns `db.go.db.Connect:42`. -/
theorem CallerInfo_format_witness :
    sampleRuntime.Caller 1 = some (200, "/home/dev/app/db/db.go", 42) ∧
    runtimeFuncForPC sampleRuntime 200 = some "github.com/dev/app/db.Connect" ∧
    CallerInfo sampleRuntime none = some "db.go.db.Connect:42" := by
  refine ⟨rfl, rfl, ?_⟩
  obtain ⟨r, h1, h2, _⟩ := (CallerInfo_format sampleRuntime 1 [] 200 42 "/home/dev/app/db/db.go"
    "github.com/dev/app/db.Connect" rfl rfl).2.2 rfl
  rw [h1, h2]
  decide

/-- C8: the level of each severity and the default branch. In a running
process `consoleOut` calls the logger once, at debug level for `"DEBUG"`, info
for `"INFO"`, warning for `"WARNING"`, error for `"ERROR"` and fatal for
`"FATAL"`, and the record that reaches the output has that level. For every
other severity string it emits exactly one record at info level, whose
message is `"[" ++ tag ++ "] " ++ render body` and which has no field at all,
and the process keeps running. -/
theorem consoleOut_levels {β : Type} (env : Env) (now : Time) (render : β → String)
    (m : Message β) (w : World β) (hw : w.exit = none) :
    (m.Severity = "DEBUG" →
      ∃ c, (consoleOut env now render m w).calls = w.calls ++ [c] ∧ c.Level = DebugLevel ∧
        ((consoleOut env now render m w).stdout = w.stdout ∨
          ∃ r, (consoleOut env now render m w).stdout = w.stdout ++ [r] ∧
            r.entry.Level = DebugLevel)) ∧
    (m.Severity = "INFO" →
      ∃ c r, (consoleOut env now render m w).calls = w.calls ++ [c] ∧ c.Level = InfoLevel ∧
        (consoleOut env now render m w).stdout = w.stdout ++ [r] ∧ r.entry.Level = InfoLevel) ∧
    (m.Severity = "WARNING" →
      ∃ c r, (consoleOut env now render m w).calls = w.calls ++ [c] ∧ c.Level = WarnLevel ∧
        (consoleOut env now render m w).stdout = w.stdout ++ [r] ∧ r.entry.Level = WarnLevel) ∧
    (m.Severity = "ERROR" →
      ∃ c r, (consoleOut env now render m w).calls = w.calls ++ [c] ∧ c.Level = ErrorLevel ∧
        (consoleOut env now render m w).stdout = w.stdout ++ [r] ∧ r.entry.Level = ErrorLevel) ∧
    (m.Severity = "FATAL" →
      ∃ c r, (consoleOut env now render m w).calls = w.calls ++ [c] ∧ c.Level = FatalLevel ∧
        (consoleOut env now render m w).stdout = w.stdout ++ [r] ∧ r.entry.Level = FatalLevel) ∧
    (m.Severity ≠ "DEBUG" → m.Severity ≠ "INFO" → m.Severity ≠ "WARNING" →
      m.Severity ≠ "ERROR" → m.Severity ≠ "FATAL" →
      ∃ c r, (consoleOut env now render m w).calls = w.calls ++ [c] ∧
        (consoleOut env now render m w).stdout = w.stdout ++ [r] ∧
        c.Level = InfoLevel ∧ r.entry.Level = InfoLevel ∧
        r.entry.Message = "[" ++ m.Tag ++ "] " ++ render m.Body ∧
        c.Data = [] ∧ r.entry.Data = [] ∧
        (consoleOut env now render m w).exit = none) := by
  refine ⟨?_, ?_, ?_, ?_, ?_, ?_⟩
  · intro hs
    rw [consoleOut_DEBUG env now render m w hw hs]
    refine ⟨_, rfl, rfl, ?_⟩
    by_cases hd : Getenv env "WLOGRUS_DEBUG" = "true"
    · right
      rw [if_pos hd]
      exact ⟨_, rfl, rfl⟩
    · left
      rw [if_neg hd]
  · intro hs
    rw [consoleOut_INFO env now render m w hw hs]
    exact ⟨_, _, rfl, rfl, rfl, rfl⟩
  · intro hs
    rw [consoleOut_WARNING env now render m w hw hs]
    exact ⟨_, _, rfl, rfl, rfl, rfl⟩
  · intro hs
    rw [consoleOut_ERROR env now render m w hw hs]
    exact ⟨_, _, rfl, rfl, rfl, rfl⟩
  · intro hs
    rw [consoleOut_FATAL env now render m w hw hs]
    exact ⟨_, _, rfl, rfl, rfl, rfl⟩
  · intro h1 h2 h3 h4 h5
    rw [consoleOut_default env now render m w hw h1 h2 h3 h4 h5]
    exact ⟨_, _, rfl, rfl, rfl, rfl, rfl, rfl, rfl, rfl⟩

/-- Witness of C8: the severity `"debug"`, in lower case, is none of the five;
the message is emitted at info level, without fields. -/
theorem consoleOut_levels_witness :
    (World.init : World String).exit = none ∧
    ∃ r, (consoleOut emptyEnv sampleTime id
        { Severity := "debug", Tag := "db", Body := "retry", Location := "db.go.Connect:42" }
        World.init).stdout = [] ++ [r] ∧
      r.entry.Level = InfoLevel ∧ r.entry.Message = "[db] retry" ∧ r.entry.Data = [] :=
  ⟨rfl, by
    obtain ⟨c, r, _, h2, _, h4, h5, _, h7, _⟩ :=
      (consoleOut_levels emptyEnv sampleTime id
        { Severity := "debug", Tag := "db", Body := "retry", Location := "db.go.Connect:42" }
        World.init rfl).2.2.2.2.2 (by decide) (by decide) (by decide) (by decide) (by decide)
    exact ⟨r, h2, h4, h5.trans (by decide), h7⟩⟩

/-- Counterexample to C9: at depth 7 of the sample call stack nothing is
resolved; `CallerInfo(7)` returns `...:0`, whose file and function components
are both `.` and not empty: it is not `.:0`, the string the format gives for
an empty file component and an empty function component. -/
theorem CallerInfo_unresolved_components :
    sampleRuntime.Caller 7 = none ∧
    CallerInfo sampleRuntime (some [7]) = some "...:0" ∧
    CallerInfo sampleRuntime (some [7]) ≠ some ("" ++ "." ++ "" ++ ":" ++ "0") ∧
    Base "" = "." ∧ Base "" ≠ "" := by
  refine ⟨rfl, ?_, ?_, ?_, ?_⟩ <;> decide

/-- C9, amended: when the frame at the requested depth cannot be resolved,
`CallerInfo` does not fail: it returns the string its format gives for the
empty file name, the empty function name and line 0. The base name of the
empty string is `.`, so the file and the function component are both `.` and
the result is `...:0`. -/
theorem CallerInfo_unresolved (rt : Runtime) (depth : Int) (rest : List Int)
    (hc : rt.Caller depth = none) :
    CallerInfo rt (some (depth :: rest))
      = some (Base "" ++ "." ++ Base "" ++ ":" ++ Nat.repr 0) ∧
    Base "" = "." ∧
    CallerInfo rt (some (depth :: rest)) = some "...:0" := by
  have h : CallerInfo rt (some (depth :: rest))
      = some (Base "" ++ "." ++ Base "" ++ ":" ++ Nat.repr 0) := by
    simp only [CallerInfo, List.head?_cons, runtimeCaller, hc, runtimeFuncForPC, if_true,
      FuncName, Option.getD_none]
  refine ⟨h, by decide, ?_⟩
  rw [h]
  decide

/-- Witness of the amended C9, at depth 7 of the sample call stack. -/
theorem CallerInfo_unresolved_witness :
    sampleRuntime.Caller 7 = none ∧ CallerInfo sampleRuntime (some [7, 1]) = some "...:0" :=
  ⟨rfl, (CallerInfo_unresolved sampleRuntime 7 [1] rfl).2.2⟩

/-- C10: the text output does not show the fields. With the text formatter
(`WLOGRUS_JSON` unset or not `"true"`), the result of `Format` is the same
for two entries with the same time, level and message, whatever their fields;
hence `Debug(tag, body, l1)` and `Debug(tag, body, l2)`, logged at the same
time in the same state, leave the same bytes on the output for any two
locations. With `WLOGRUS_DEBUG` set to `"true"` those bytes are the earlier
output followed by the line of an entry without any field. -/
theorem text_output_hides_fields {β : Type} (env : Env) (now : Time) (render : β → String)
    (tag : String) (body : β) (l1 l2 : String) (w : World β)
    (jsonFormat : Entry β → String × Option String)
    (hj : env "WLOGRUS_JSON" ≠ some "true") :
    (∀ (f : TextFormatter) (e1 e2 : Entry β), e1.Time = e2.Time → e1.Level = e2.Level →
      e1.Message = e2.Message → Format f e1 = Format f e2) ∧
    (Debug env now render tag body l1 w).bytes jsonFormat
      = (Debug env now render tag body l2 w).bytes jsonFormat ∧
    (env "WLOGRUS_DEBUG" = some "true" → w.exit = none →
      (Debug env now render tag body l1 w).bytes jsonFormat
        = w.bytes jsonFormat ++
          (Format textFormatter
            ({ Time := now, Level := DebugLevel, Message := "[" ++ tag ++ "] " ++ render body,
               Data := [] } : Entry β)).1) := by
  have hfmt : (newLogger env).Formatter = Formatter.logFormatter textFormatter := by
    rw [newLogger_Formatter, if_neg]
    exact fun h => hj ((Getenv_eq_true_iff env _).1 h)
  have key : ∀ l : String, w.exit = none → Getenv env "WLOGRUS_DEBUG" = "true" →
      (Debug env now render tag body l w).bytes jsonFormat
        = w.bytes jsonFormat ++
          (Format textFormatter
            ({ Time := now, Level := DebugLevel, Message := "[" ++ tag ++ "] " ++ render body,
               Data := [] } : Entry β)).1 := by
    intro l hw hd
    unfold Debug
    rw [consoleOut_DEBUG env now render _ w hw rfl, if_pos hd, hfmt, bytes_snoc,
      Record_bytes_text]
    rfl
  refine ⟨?_, ?_, ?_⟩
  · intro f e1 e2 ht hl hm
    unfold Format
    rw [ht, hl, hm]
  · cases hw : w.exit with
    | some k =>
      unfold Debug
      rw [consoleOut_dead env now render _ w k hw, consoleOut_dead env now render _ w k hw]
    | none =>
      by_cases hd : Getenv env "WLOGRUS_DEBUG" = "true"
      · rw [key l1 hw hd, key l2 hw hd]
      · unfold Debug
        rw [consoleOut_DEBUG env now render _ w hw rfl, consoleOut_DEBUG env now render _ w hw rfl]
        simp only [if_neg hd]
        rfl
  · intro hd hw
    exact key l1 hw ((Getenv_eq_true_iff env _).2 hd)

/-- Witness of C10: with debugging on and the text formatter, the locations
`db.go.Connect:42` and `main.go.main:7` give the same bytes. -/
theorem text_output_hides_fields_witness :
    singleEnv "WLOGRUS_DEBUG" "true" "WLOGRUS_JSON" ≠ some "true" ∧
    (Debug (singleEnv "WLOGRUS_DEBUG" "true") sampleTime id "db" "retry" "db.go.Connect:42"
        World.init).bytes (fun _ => ("", none))
      = (Debug (singleEnv "WLOGRUS_DEBUG" "true") sampleTime id "db" "retry" "main.go.main:7"
        World.init).bytes (fun _ => ("", none)) :=
  ⟨by decide,
    (text_output_hides_fields (singleEnv "WLOGRUS_DEBUG" "true") sampleTime id "db" "retry"
      "db.go.Connect:42" "main.go.main:7" World.init (fun _ => ("", none)) (by decide)).2.1⟩

end Wlogrus
